import Mathlib

/-!
Shallow embedding of `src/main.rs` of `atspi-cache-sigmon`.

The program opens an AT-SPI accessibility-bus connection, registers three
cache event types, filters the raw zbus message stream down to signal
messages, decodes each into an `Event`, and for `Cache::Add` events builds
two short-lived proxies (Application and Accessible) and prints a fixed set
of remote properties, substituting fixed placeholder strings when a fetch
fails.

External library behaviour (zbus / atspi / the remote bus peers) is modelled
by explicit environment records (`SetupEnv`, `RemoteEnv`): each fallible
external call site in the source corresponds to one environment component
that decides whether that call succeeds and with which value.  Console
output and remote round-trips are recorded as an explicit `Action` trace.
A `?`-propagated error or a `panic!`/`unwrap` failure is recorded as a
`Crash` value terminating the trace, matching how an `Err` returned from
`main` or a panic ends the process.
-/

namespace Sigmon

/-- zbus `MessageType` tag of an inbound bus message (only the variants the
program distinguishes: the filter compares against `MessageType::Signal`). -/
inductive MessageType where
  | signal
  | methodCall
  | methodReturn
  | error
deriving DecidableEq, Repr

/-- The `(so)` application reference carried by a cache item: bus name and
object path of the owning application (`app.name`, `app.path` in the source). -/
structure ObjectRef where
  name : String
  path : String
deriving DecidableEq, Repr

/-- The decoded cache-item payload of an Add event.  The source destructures
`CacheItem { app, .. }` and consumes only the `app` field; the remaining
payload fields are not read by this program and are not modelled. -/
structure CacheItem where
  app : ObjectRef
deriving DecidableEq, Repr

/-- atspi `AddAccessibleEvent`: the source destructures
`AddAccessibleEvent { node_added, .. }`. -/
structure AddAccessibleEvent where
  node_added : CacheItem
deriving DecidableEq, Repr

/-- atspi `RemoveAccessibleEvent`; its payload is not consumed by the
program (`Remove(_event)`). -/
structure RemoveAccessibleEvent where
  node_removed : CacheItem
deriving DecidableEq, Repr

/-- atspi `LegacyAddAccessibleEvent`; its payload is not consumed by the
program (`LegacyAdd(_event)`). -/
structure LegacyAddAccessibleEvent where
  node_added : CacheItem
deriving DecidableEq, Repr

/-- atspi `CacheEvents`: the three cache lifecycle notification variants. -/
inductive CacheEvents where
  | Add : AddAccessibleEvent → CacheEvents
  | Remove : RemoveAccessibleEvent → CacheEvents
  | LegacyAdd : LegacyAddAccessibleEvent → CacheEvents
deriving DecidableEq, Repr

/-- atspi `Event`: the decoded high-level event.  The source matches
`Event::Cache(..)` and ignores every other variant (`_ => {}`); all other
variants are collapsed into `other`. -/
inductive Event where
  | Cache : CacheEvents → Event
  | other : Event
deriving DecidableEq, Repr

/-- atspi `Role`: the enumerated role classification returned by
`get_role`.  The source names only `Role::Unknown`; the display strings of
the variants are external atspi behaviour, modelled from the spec scenario
(`role: Frame`, Unknown sentinel). -/
inductive Role where
  | unknown
  | frame
deriving DecidableEq, Repr

/-- Display string of a `Role`, as printed by `println!("role: {role}")`. -/
def Role.display : Role → String
  | .unknown => "Unknown"
  | .frame => "Frame"

/-- A raw zbus message as far as this program observes it:
its message-kind tag, its body signature header (`msg.body_signature()`
returns an error when the header is absent — the source calls `.unwrap()`
on it), and the result of the pure external decode `Event::try_from(&*msg)`
(`none` models a failed conversion, which the source drops with
`if let Ok(event)`). -/
structure Message where
  message_type : MessageType
  body_signature : Option String
  event : Option Event
deriving DecidableEq, Repr

/-- One observable step of the program: a console line printed by
`println!`, a remote proxy build round-trip (`ProxyBuilder::build().await`),
or a remote property fetch round-trip. -/
inductive Action where
  | out (line : String)
  | buildProxy (iface bus_name obj_path : String)
  | fetch (property bus_name obj_path : String)
deriving DecidableEq, Repr

/-- How processing stopped early: a Rust panic (`unwrap` on a failed
result) or an error value propagated out of `main` by `?`. -/
inductive Crash where
  | panic (msg : String)
  | err (msg : String)
deriving DecidableEq, Repr

/-- Result of a program fragment: the actions performed so far, and
`some c` when the fragment stopped with a crash `c` (so nothing after it
runs), `none` when it ran to completion. -/
abbrev Out := List Action × Option Crash

/-- The console lines of a trace. -/
def outputs (acts : List Action) : List String :=
  acts.filterMap fun a => match a with
    | .out s => some s
    | _ => none

/-- The remote round-trips of a trace (proxy builds and property fetches). -/
def remoteActions (acts : List Action) : List Action :=
  acts.filter fun a => match a with
    | .out _ => false
    | _ => true

/-- `const APPLICATION_INTERFACE` in the source. -/
def APPLICATION_INTERFACE : String := "org.a11y.atspi.Application"

/-- `const ACCESSIBLE_INTERFACE` in the source. -/
def ACCESSIBLE_INTERFACE : String := "org.a11y.atspi.Accessible"

/-- Environment deciding each fallible external call of
`atspi_setup_connection`: `AccessibilityConnection::open()` and the three
`register_event` calls. -/
structure SetupEnv where
  openOk : Bool
  registerAddOk : Bool
  registerLegacyAddOk : Bool
  registerRemoveOk : Bool
deriving DecidableEq, Repr

/-- Environment deciding each fallible external call performed while
handling an Add event.  `validInterface`, `validPath`, `validDestination`
model the zbus name validations behind `ProxyBuilder::interface(..)?`,
`.path(..)?` and `.destination(..)?` (each is fallible at its call site and
the source propagates its error with `?`).  `buildApplicationOk` /
`buildAccessibleOk` decide the final `.build().await` calls, which the
source wraps in `if let Ok`.  The five property-fetch components return
`none` when the remote fetch fails (the source applies `unwrap_or`). -/
structure RemoteEnv where
  validInterface : String → Bool
  validPath : String → Bool
  validDestination : String → Bool
  buildApplicationOk : String → String → Bool
  buildAccessibleOk : String → String → Bool
  toolkit_name : String → String → Option String
  fetchName : String → String → Option String
  description : String → String → Option String
  get_role : String → String → Option Role

/-- `async fn atspi_setup_connection()`: open the connection and register
the three event types, propagating the first failure with `?`. -/
def atspi_setup_connection (e : SetupEnv) : Except String Unit :=
  if !e.openOk then .error "could not open accessibility connection"
  else if !e.registerAddOk then .error "could not register AddAccessibleEvent"
  else if !e.registerLegacyAddOk then .error "could not register LegacyAddAccessibleEvent"
  else if !e.registerRemoveOk then .error "could not register RemoveAccessibleEvent"
  else .ok ()

/-- The stream filter
`.filter(|msg| msg.is_ok() && msg.as_ref().unwrap().message_type() == MessageType::Signal)`:
keeps exactly the successfully read messages whose kind tag is signal. -/
def rawSignals (stream : List (Except String Message)) : List (Except String Message) :=
  stream.filter fun msg => match msg with
    | .ok m => m.message_type == MessageType.signal
    | .error _ => false

/-- The Application sequence of the Add handler: the `ProxyBuilder` chain
`interface(APPLICATION_INTERFACE)? .path(obj_path)? .destination(bus_name)?
.build().await` wrapped in `if let Ok`, then the toolkit fetch with
`unwrap_or("Could not read toolkit property")` and its `println!`. -/
def applicationSequence (env : RemoteEnv) (bus_name obj_path : String) : Out :=
  if !env.validInterface APPLICATION_INTERFACE then
    ([], some (.err "invalid interface name"))
  else if !env.validPath obj_path then
    ([], some (.err "invalid object path"))
  else if !env.validDestination bus_name then
    ([], some (.err "invalid destination bus name"))
  else if env.buildApplicationOk bus_name obj_path then
    let toolkit := (env.toolkit_name bus_name obj_path).getD "Could not read toolkit property"
    ([.buildProxy APPLICATION_INTERFACE bus_name obj_path,
      .fetch "toolkit_name" bus_name obj_path,
      .out ("toolkit: " ++ toolkit)], none)
  else
    ([.buildProxy APPLICATION_INTERFACE bus_name obj_path], none)

/-- The Accessible sequence of the Add handler: the `ProxyBuilder` chain
for `ACCESSIBLE_INTERFACE` wrapped in `if let Ok`, then the name,
description and role fetches, each defaulting independently with
`unwrap_or` and each printed as it is obtained. -/
def accessibleSequence (env : RemoteEnv) (bus_name obj_path : String) : Out :=
  if !env.validInterface ACCESSIBLE_INTERFACE then
    ([], some (.err "invalid interface name"))
  else if !env.validPath obj_path then
    ([], some (.err "invalid object path"))
  else if !env.validDestination bus_name then
    ([], some (.err "invalid destination bus name"))
  else if env.buildAccessibleOk bus_name obj_path then
    let nm := (env.fetchName bus_name obj_path).getD "Could not read name property"
    let descr := (env.description bus_name obj_path).getD "Could not obtain a description."
    let role := (env.get_role bus_name obj_path).getD Role.unknown
    ([.buildProxy ACCESSIBLE_INTERFACE bus_name obj_path,
      .fetch "name" bus_name obj_path,
      .out ("name: " ++ nm),
      .fetch "description" bus_name obj_path,
      .out ("description: " ++ descr),
      .fetch "get_role" bus_name obj_path,
      .out ("role: " ++ role.display)], none)
  else
    ([.buildProxy ACCESSIBLE_INTERFACE bus_name obj_path], none)

/-- The `Event::Cache(CacheEvents::Add(event))` arm: print the body
signature line (`body_signature().unwrap()`), print the root-object line
from the payload's application reference, then run the Application sequence
followed by the Accessible sequence. -/
def handleAdd (env : RemoteEnv) (msg : Message) (ev : AddAccessibleEvent) : Out :=
  match msg.body_signature with
  | none => ([], some (.panic "called `Result::unwrap()` on an `Err` value"))
  | some sig =>
    let line1 := Action.out ("AddAccessible DBus body signature: " ++ sig)
    let bus_name := ev.node_added.app.name
    let obj_path := ev.node_added.app.path
    let line2 := Action.out
      ("Root object of Cache event bus_name: " ++ bus_name ++ ", obj_path: " ++ obj_path)
    let appSeq := applicationSequence env bus_name obj_path
    match appSeq.2 with
    | some c => ([line1, line2] ++ appSeq.1, some c)
    | none =>
      let accSeq := accessibleSequence env bus_name obj_path
      ([line1, line2] ++ appSeq.1 ++ accSeq.1, accSeq.2)

/-- Dispatch on the decoded event: the `if let Ok(event) = Event::try_from(&*msg)`
guard (decode failure does nothing) and the four-armed `match event`. -/
def handleMessage (env : RemoteEnv) (msg : Message) : Out :=
  match msg.event with
  | none => ([], none)
  | some ev =>
    match ev with
    | .Cache (.Add e) => handleAdd env msg e
    | .Cache (.Remove _) =>
      match msg.body_signature with
      | none => ([], some (.panic "called `Result::unwrap()` on an `Err` value"))
      | some sig => ([.out ("RemoveAccessible: DBus body signature: " ++ sig)], none)
    | .Cache (.LegacyAdd _) =>
      match msg.body_signature with
      | none => ([], some (.panic "called `Result::unwrap()` on an `Err` value"))
      | some sig => ([.out ("LegacyAddAccessible: DBus body signature: " ++ sig)], none)
    | .other => ([], none)

/-- One iteration of the `while let Some(msg)` loop body: the `match msg`
with an `Ok` arm dispatching the message and an `Err` arm printing a
diagnostic line (`println!("Error: {:?}", e)`). -/
def loopBody (env : RemoteEnv) (msg : Except String Message) : Out :=
  match msg with
  | .ok m => handleMessage env m
  | .error e => ([.out ("Error: " ++ e)], none)

/-- The whole consume loop over an (already filtered) finite stream of
items, stopping early on a crash. -/
def consumeLoop (env : RemoteEnv) : List (Except String Message) → Out
  | [] => ([], none)
  | m :: rest =>
    let step := loopBody env m
    match step.2 with
    | some c => (step.1, some c)
    | none =>
      let next := consumeLoop env rest
      (step.1 ++ next.1, next.2)

/-- `async fn main()`: run setup (propagating its failure with `?` before
any message is read), build the filtered signal stream and consume it. -/
def progMain (se : SetupEnv) (env : RemoteEnv)
    (stream : List (Except String Message)) : Out :=
  match atspi_setup_connection se with
  | .error e => ([], some (.err e))
  | .ok _ => consumeLoop env (rawSignals stream)

/-! ### Concrete fixtures used by witnesses and counterexamples -/

/-- Setup environment in which connection open and all three registrations
succeed. -/
def setupOk : SetupEnv := ⟨true, true, true, true⟩

/-- Remote environment in which every validation, build and fetch succeeds,
with the remote values of end-to-end scenario 1 of the spec. -/
def envHappy : RemoteEnv where
  validInterface := fun _ => true
  validPath := fun _ => true
  validDestination := fun _ => true
  buildApplicationOk := fun _ _ => true
  buildAccessibleOk := fun _ _ => true
  toolkit_name := fun _ _ => some "Gtk"
  fetchName := fun _ _ => some "MainWindow"
  description := fun _ _ => some ""
  get_role := fun _ _ => some Role.frame

/-- `envHappy` but every property fetch fails. -/
def envFetchFail : RemoteEnv :=
  { envHappy with
    toolkit_name := fun _ _ => none
    fetchName := fun _ _ => none
    description := fun _ _ => none
    get_role := fun _ _ => none }

/-- `envHappy` but the Application proxy `.build().await` fails. -/
def envAppBuildFail : RemoteEnv :=
  { envHappy with buildApplicationOk := fun _ _ => false }

/-- `envHappy` but the zbus destination validation rejects an empty bus
name (the empty string is not a valid D-Bus bus name). -/
def envStrictDest : RemoteEnv :=
  { envHappy with validDestination := fun s => !s.isEmpty }

/-- The application reference of end-to-end scenario 1. -/
def exampleApp : ObjectRef := ⟨"org.example.App", "/org/example/App/Root"⟩

/-- The synthetic Add-accessible signal of end-to-end scenario 1. -/
def addMsg : Message :=
  ⟨MessageType.signal, some "((so)(so)(so)iiassusau)",
    some (Event.Cache (CacheEvents.Add ⟨⟨exampleApp⟩⟩))⟩

/-- A decodable Add-accessible signal whose application bus-name string is
empty (on the wire the name field is a plain string, so such a payload
decodes fine). -/
def evEmptyName : AddAccessibleEvent := ⟨⟨⟨"", "/org/example/App/Root"⟩⟩⟩

/-- A signal message decoding to `evEmptyName`. -/
def addMsgEmptyName : Message :=
  ⟨MessageType.signal, some "((so)(so)(so)iiassusau)",
    some (Event.Cache (CacheEvents.Add evEmptyName))⟩

/-- A Remove-accessible signal. -/
def removeMsg : Message :=
  ⟨MessageType.signal, some "(so)",
    some (Event.Cache (CacheEvents.Remove ⟨⟨exampleApp⟩⟩))⟩

/-- A signal that fails to decode to any known `Event` variant (bus
noise). -/
def noiseMsg : Message := ⟨MessageType.signal, some "s", none⟩

/-! ### Claims -/

/-- Claim C1.  The claim states that a transport-level read failure on the
raw message stream makes the consume loop emit a diagnostic line and
continue.  On the code, the stream filter
`msg.is_ok() && msg.as_ref().unwrap().message_type() == MessageType::Signal`
drops `Err` items before the loop ever sees them, so the loop's
`Err(e) => println!("Error: {:?}", e)` arm is unreachable: feeding a
transport error followed by a valid Remove signal produces no diagnostic
line at all — only the signature line of the subsequent signal, which is
still processed normally. -/
theorem c1_transport_error_silently_dropped :
    progMain setupOk envHappy
        [Except.error "transport failure", Except.ok removeMsg] =
      ([Action.out "RemoveAccessible: DBus body signature: (so)"], none) := rfl

/-- Claim C8.  The Signal Filter passes exactly the input entries whose
read succeeded and whose message-kind tag is signal; in particular it
introduces no errors of its own. -/
theorem c8_signal_filter_exact (stream : List (Except String Message))
    (m : Except String Message) :
    m ∈ rawSignals stream ↔
      m ∈ stream ∧ ∃ msg, m = Except.ok msg ∧
        msg.message_type = MessageType.signal := by
  unfold rawSignals
  rw [List.mem_filter]
  refine and_congr_right fun _ => ?_
  cases m with
  | ok msg =>
      simp only [beq_iff_eq]
      constructor
      · intro h
        exact ⟨msg, rfl, h⟩
      · rintro ⟨msg2, heq, h⟩
        cases heq
        exact h
  | error e =>
      simp

/-- Claim C9.  A successfully read signal message that fails to decode to a
known `Event` variant is dropped silently: no action is performed and no
output line is emitted. -/
theorem c9_decode_failure_silent (env : RemoteEnv) (msg : Message)
    (h : msg.event = none) :
    handleMessage env msg = ([], none) := by
  unfold handleMessage
  rw [h]

/-- Concrete instance of C9: the bus-noise message is dropped with no
actions. -/
theorem c9_decode_failure_silent_witness :
    handleMessage envHappy noiseMsg = ([], none) :=
  c9_decode_failure_silent envHappy noiseMsg rfl

/-- Claim C6.  A decoded Remove or LegacyAdd event produces exactly one
output line (the body type-signature line) and performs no remote
proxy builds and no remote property fetches. -/
theorem c6_remove_legacy_single_line (env : RemoteEnv) (msg : Message)
    (sig : String) (hsig : msg.body_signature = some sig)
    (h : (∃ r, msg.event = some (Event.Cache (CacheEvents.Remove r))) ∨
         (∃ l, msg.event = some (Event.Cache (CacheEvents.LegacyAdd l)))) :
    ∃ pre, handleMessage env msg = ([Action.out (pre ++ sig)], none) ∧
      (outputs (handleMessage env msg).1).length = 1 ∧
      remoteActions (handleMessage env msg).1 = [] := by
  rcases h with ⟨r, hev⟩ | ⟨l, hev⟩
  · refine ⟨"RemoveAccessible: DBus body signature: ", ?_, ?_, ?_⟩ <;>
      simp [handleMessage, hev, hsig, outputs, remoteActions]
  · refine ⟨"LegacyAddAccessible: DBus body signature: ", ?_, ?_, ?_⟩ <;>
      simp [handleMessage, hev, hsig, outputs, remoteActions]

/-- Concrete instance of C6: the Remove-accessible fixture yields exactly
its signature line and no remote actions. -/
theorem c6_remove_legacy_single_line_witness :
    ∃ pre, handleMessage envHappy removeMsg =
        ([Action.out (pre ++ "(so)")], none) ∧
      (outputs (handleMessage envHappy removeMsg).1).length = 1 ∧
      remoteActions (handleMessage envHappy removeMsg).1 = [] :=
  c6_remove_legacy_single_line envHappy removeMsg "(so)" rfl
    (Or.inl ⟨⟨⟨exampleApp⟩⟩, rfl⟩)

/-- Claim C5.  Startup is all-or-nothing: if opening the connection or any
one of the three event registrations fails, `atspi_setup_connection`
returns an error and `main` terminates with it without reading any message
from the stream (its result does not depend on the stream and contains no
action). -/
theorem c5_setup_all_or_nothing (se : SetupEnv)
    (h : se.openOk = false ∨ se.registerAddOk = false ∨
         se.registerLegacyAddOk = false ∨ se.registerRemoveOk = false) :
    ∃ e, atspi_setup_connection se = Except.error e ∧
      ∀ env stream, progMain se env stream = ([], some (Crash.err e)) := by
  obtain ⟨o, a, l, r⟩ := se
  cases o <;> cases a <;> cases l <;> cases r <;>
    first
      | exact ⟨_, rfl, fun env stream => rfl⟩
      | simp_all

/-- Concrete instance of C5: a failed connection open aborts startup and
`main` reads no message. -/
theorem c5_setup_all_or_nothing_witness :
    ∃ e, atspi_setup_connection ⟨false, true, true, true⟩ = Except.error e ∧
      ∀ env stream,
        progMain ⟨false, true, true, true⟩ env stream =
          ([], some (Crash.err e)) :=
  c5_setup_all_or_nothing ⟨false, true, true, true⟩ (Or.inl rfl)

/-! ### Helper lemmas about the two query sequences -/

/-- When the three builder-configuration validations succeed, the
Application sequence never crashes (both outcomes of the final build are
handled by `if let Ok`). -/
lemma applicationSequence_no_crash (env : RemoteEnv) (bus_name obj_path : String)
    (hi : env.validInterface APPLICATION_INTERFACE = true)
    (hp : env.validPath obj_path = true)
    (hd : env.validDestination bus_name = true) :
    (applicationSequence env bus_name obj_path).2 = none := by
  unfold applicationSequence
  rw [hi, hp, hd]
  cases hb : env.buildApplicationOk bus_name obj_path <;> simp [hb]

/-- When the three builder-configuration validations succeed, the
Accessible sequence never crashes. -/
lemma accessibleSequence_no_crash (env : RemoteEnv) (bus_name obj_path : String)
    (hi : env.validInterface ACCESSIBLE_INTERFACE = true)
    (hp : env.validPath obj_path = true)
    (hd : env.validDestination bus_name = true) :
    (accessibleSequence env bus_name obj_path).2 = none := by
  unfold accessibleSequence
  rw [hi, hp, hd]
  cases hb : env.buildAccessibleOk bus_name obj_path <;> simp [hb]

/-- A failed Application build leaves only the build attempt in the trace:
its queries are skipped. -/
lemma applicationSequence_build_failed (env : RemoteEnv) (bus_name obj_path : String)
    (hi : env.validInterface APPLICATION_INTERFACE = true)
    (hp : env.validPath obj_path = true)
    (hd : env.validDestination bus_name = true)
    (hb : env.buildApplicationOk bus_name obj_path = false) :
    (applicationSequence env bus_name obj_path).1 =
      [Action.buildProxy APPLICATION_INTERFACE bus_name obj_path] := by
  unfold applicationSequence
  rw [hi, hp, hd, hb]
  simp

/-- A failed Accessible build leaves only the build attempt in the trace:
its queries are skipped. -/
lemma accessibleSequence_build_failed (env : RemoteEnv) (bus_name obj_path : String)
    (hi : env.validInterface ACCESSIBLE_INTERFACE = true)
    (hp : env.validPath obj_path = true)
    (hd : env.validDestination bus_name = true)
    (hb : env.buildAccessibleOk bus_name obj_path = false) :
    (accessibleSequence env bus_name obj_path).1 =
      [Action.buildProxy ACCESSIBLE_INTERFACE bus_name obj_path] := by
  unfold accessibleSequence
  rw [hi, hp, hd, hb]
  simp

/-- Claim C7.  After a successful handle build, a failed toolkit fetch
still emits its line with the fixed placeholder "Could not read toolkit
property", and a failed role fetch still emits its line with the Unknown
sentinel role; neither failure crashes its sequence. -/
theorem c7_fetch_failure_placeholders (env : RemoteEnv)
    (bus_name obj_path : String)
    (hiA : env.validInterface APPLICATION_INTERFACE = true)
    (hiB : env.validInterface ACCESSIBLE_INTERFACE = true)
    (hp : env.validPath obj_path = true)
    (hd : env.validDestination bus_name = true)
    (hba : env.buildApplicationOk bus_name obj_path = true)
    (hbb : env.buildAccessibleOk bus_name obj_path = true)
    (htk : env.toolkit_name bus_name obj_path = none)
    (hrl : env.get_role bus_name obj_path = none) :
    Action.out "toolkit: Could not read toolkit property" ∈
        (applicationSequence env bus_name obj_path).1 ∧
      (applicationSequence env bus_name obj_path).2 = none ∧
      Action.out ("role: " ++ Role.display Role.unknown) ∈
        (accessibleSequence env bus_name obj_path).1 ∧
      (accessibleSequence env bus_name obj_path).2 = none := by
  unfold applicationSequence accessibleSequence
  rw [hiA, hiB, hp, hd, hba, hbb, htk, hrl]
  simp [Role.display]

/-- Concrete instance of C7 in the all-fetches-fail environment. -/
theorem c7_fetch_failure_placeholders_witness :
    Action.out "toolkit: Could not read toolkit property" ∈
        (applicationSequence envFetchFail "org.example.App" "/org/example/App/Root").1 ∧
      (applicationSequence envFetchFail "org.example.App" "/org/example/App/Root").2 = none ∧
      Action.out ("role: " ++ Role.display Role.unknown) ∈
        (accessibleSequence envFetchFail "org.example.App" "/org/example/App/Root").1 ∧
      (accessibleSequence envFetchFail "org.example.App" "/org/example/App/Root").2 = none :=
  c7_fetch_failure_placeholders envFetchFail "org.example.App"
    "/org/example/App/Root" rfl rfl rfl rfl rfl rfl rfl rfl

/-- Claim C10.  After a successful Accessible handle build, a failed name
fetch emits exactly the fixed placeholder line "name: Could not read name
property" and a failed description fetch emits exactly "description: Could
not obtain a description."; the sequence does not crash. -/
theorem c10_name_description_placeholders (env : RemoteEnv)
    (bus_name obj_path : String)
    (hiB : env.validInterface ACCESSIBLE_INTERFACE = true)
    (hp : env.validPath obj_path = true)
    (hd : env.validDestination bus_name = true)
    (hbb : env.buildAccessibleOk bus_name obj_path = true)
    (hnm : env.fetchName bus_name obj_path = none)
    (hds : env.description bus_name obj_path = none) :
    Action.out "name: Could not read name property" ∈
        (accessibleSequence env bus_name obj_path).1 ∧
      Action.out "description: Could not obtain a description." ∈
        (accessibleSequence env bus_name obj_path).1 ∧
      (accessibleSequence env bus_name obj_path).2 = none := by
  unfold accessibleSequence
  rw [hiB, hp, hd, hbb, hnm, hds]
  simp

/-- Concrete instance of C10 in the all-fetches-fail environment. -/
theorem c10_name_description_placeholders_witness :
    Action.out "name: Could not read name property" ∈
        (accessibleSequence envFetchFail "org.example.App" "/org/example/App/Root").1 ∧
      Action.out "description: Could not obtain a description." ∈
        (accessibleSequence envFetchFail "org.example.App" "/org/example/App/Root").1 ∧
      (accessibleSequence envFetchFail "org.example.App" "/org/example/App/Root").2 = none :=
  c10_name_description_placeholders envFetchFail "org.example.App"
    "/org/example/App/Root" rfl rfl rfl rfl rfl rfl

/-- Claim C4, counterexample.  On end-to-end scenario 1 the program emits
six output lines, not four as the claim states (the claim itself lists six
line contents). -/
theorem c4_counterexample_six_lines :
    (outputs (progMain setupOk envHappy [Except.ok addMsg]).1).length = 6 ∧
      (outputs (progMain setupOk envHappy [Except.ok addMsg]).1).length ≠ 4 := by
  constructor
  · rfl
  · decide

/-- Claim C4, amended: on end-to-end scenario 1 the program emits exactly
six output lines — the signature line, the root-object line, "toolkit:
Gtk", "name: MainWindow", "description: " and "role: Frame" — and
terminates the iteration normally. -/
theorem c4_scenario_one_output :
    progMain setupOk envHappy [Except.ok addMsg] =
      ([Action.out "AddAccessible DBus body signature: ((so)(so)(so)iiassusau)",
        Action.out "Root object of Cache event bus_name: org.example.App, obj_path: /org/example/App/Root",
        Action.buildProxy APPLICATION_INTERFACE "org.example.App" "/org/example/App/Root",
        Action.fetch "toolkit_name" "org.example.App" "/org/example/App/Root",
        Action.out "toolkit: Gtk",
        Action.buildProxy ACCESSIBLE_INTERFACE "org.example.App" "/org/example/App/Root",
        Action.fetch "name" "org.example.App" "/org/example/App/Root",
        Action.out "name: MainWindow",
        Action.fetch "description" "org.example.App" "/org/example/App/Root",
        Action.out "description: ",
        Action.fetch "get_role" "org.example.App" "/org/example/App/Root",
        Action.out "role: Frame"], none) := by
  rfl

/-- Claim C2, counterexample.  The source wraps only the final
`.build().await` of each proxy in `if let Ok`; the preceding
`.interface(..)?`, `.path(..)?` and `.destination(..)?` builder steps
propagate their error with `?`.  On a decodable Add event whose
application bus-name string is empty (rejected by the destination
validation), the Application sequence's builder failure aborts the whole
handler: the Accessible sequence is never attempted (no build, no output)
and the handler ends with a propagated error. -/
theorem c2_counterexample_builder_error_aborts :
    handleAdd envStrictDest addMsgEmptyName evEmptyName =
      ([Action.out "AddAccessible DBus body signature: ((so)(so)(so)iiassusau)",
        Action.out "Root object of Cache event bus_name: , obj_path: /org/example/App/Root"],
       some (Crash.err "invalid destination bus name")) := rfl

/-- Claim C2, amended: provided the builder-configuration steps
(`interface`/`path`/`destination` validation, whose errors the source
propagates with `?`) succeed, the Application and Accessible sequences are
attempted independently — the handler completes without crash, the traces
of both sequences appear in its output regardless of either final build's
outcome, and a failed final build of either proxy skips only that
sequence's queries. -/
theorem c2_sequences_independent (env : RemoteEnv) (msg : Message)
    (bus_name obj_path sig : String)
    (hsig : msg.body_signature = some sig)
    (hiA : env.validInterface APPLICATION_INTERFACE = true)
    (hiB : env.validInterface ACCESSIBLE_INTERFACE = true)
    (hp : env.validPath obj_path = true)
    (hd : env.validDestination bus_name = true) :
    handleAdd env msg ⟨⟨⟨bus_name, obj_path⟩⟩⟩ =
      ([Action.out ("AddAccessible DBus body signature: " ++ sig),
        Action.out ("Root object of Cache event bus_name: " ++ bus_name ++
          ", obj_path: " ++ obj_path)]
        ++ (applicationSequence env bus_name obj_path).1
        ++ (accessibleSequence env bus_name obj_path).1, none) ∧
      (env.buildApplicationOk bus_name obj_path = false →
        (applicationSequence env bus_name obj_path).1 =
          [Action.buildProxy APPLICATION_INTERFACE bus_name obj_path]) ∧
      (env.buildAccessibleOk bus_name obj_path = false →
        (accessibleSequence env bus_name obj_path).1 =
          [Action.buildProxy ACCESSIBLE_INTERFACE bus_name obj_path]) := by
  refine ⟨?_,
    fun hb => applicationSequence_build_failed env bus_name obj_path hiA hp hd hb,
    fun hb => accessibleSequence_build_failed env bus_name obj_path hiB hp hd hb⟩
  have h1 := applicationSequence_no_crash env bus_name obj_path hiA hp hd
  have h2 := accessibleSequence_no_crash env bus_name obj_path hiB hp hd
  unfold handleAdd
  simp only [hsig, h1, h2]

/-- Concrete instance of the amended C2: with the Application build forced
to fail, the handler still runs the Accessible sequence and completes. -/
theorem c2_sequences_independent_witness :
    handleAdd envAppBuildFail addMsg
        ⟨⟨⟨"org.example.App", "/org/example/App/Root"⟩⟩⟩ =
      ([Action.out ("AddAccessible DBus body signature: " ++ "((so)(so)(so)iiassusau)"),
        Action.out ("Root object of Cache event bus_name: " ++ "org.example.App" ++
          ", obj_path: " ++ "/org/example/App/Root")]
        ++ (applicationSequence envAppBuildFail "org.example.App" "/org/example/App/Root").1
        ++ (accessibleSequence envAppBuildFail "org.example.App" "/org/example/App/Root").1,
        none) ∧
      (envAppBuildFail.buildApplicationOk "org.example.App" "/org/example/App/Root" = false →
        (applicationSequence envAppBuildFail "org.example.App" "/org/example/App/Root").1 =
          [Action.buildProxy APPLICATION_INTERFACE "org.example.App" "/org/example/App/Root"]) ∧
      (envAppBuildFail.buildAccessibleOk "org.example.App" "/org/example/App/Root" = false →
        (accessibleSequence envAppBuildFail "org.example.App" "/org/example/App/Root").1 =
          [Action.buildProxy ACCESSIBLE_INTERFACE "org.example.App" "/org/example/App/Root"]) :=
  c2_sequences_independent envAppBuildFail addMsg "org.example.App"
    "/org/example/App/Root" "((so)(so)(so)iiassusau)" rfl rfl rfl rfl rfl

/-- Claim C3, counterexample.  A single decodable Add message whose
application bus-name string is rejected by the destination validation makes
`main` return an error: the loop terminates even though the stream has a
further valid signal, whose line is never printed. -/
theorem c3_counterexample_loop_terminated :
    (progMain setupOk envStrictDest
        [Except.ok addMsgEmptyName, Except.ok removeMsg]).2 =
        some (Crash.err "invalid destination bus name") ∧
      "RemoveAccessible: DBus body signature: (so)" ∉
        outputs (progMain setupOk envStrictDest
          [Except.ok addMsgEmptyName, Except.ok removeMsg]).1 := by
  constructor
  · rfl
  · decide

/-- When the zbus name validations accept every string the message
dispatcher can crash only through the `body_signature().unwrap()` of a
cache event; a cache-event message with a body signature never crashes. -/
lemma handleMessage_no_crash (env : RemoteEnv) (msg : Message)
    (hvi : ∀ s, env.validInterface s = true)
    (hvp : ∀ s, env.validPath s = true)
    (hvd : ∀ s, env.validDestination s = true)
    (hwf : ∀ c, msg.event = some (Event.Cache c) → msg.body_signature ≠ none) :
    (handleMessage env msg).2 = none := by
  obtain ⟨mt, bs, ev⟩ := msg
  cases ev with
  | none => rfl
  | some e =>
    cases e with
    | other => rfl
    | Cache c =>
      have hbs := hwf c rfl
      cases c with
      | Add a =>
        cases bs with
        | none => exact absurd rfl hbs
        | some sig =>
          have h1 := applicationSequence_no_crash env a.node_added.app.name
            a.node_added.app.path (hvi _) (hvp _) (hvd _)
          have h2 := accessibleSequence_no_crash env a.node_added.app.name
            a.node_added.app.path (hvi _) (hvp _) (hvd _)
          show (handleAdd env
            ⟨mt, some sig, some (Event.Cache (CacheEvents.Add a))⟩ a).2 = none
          unfold handleAdd
          simp only [h1, h2]
      | Remove r =>
        cases bs with
        | none => exact absurd rfl hbs
        | some sig => rfl
      | LegacyAdd l =>
        cases bs with
        | none => exact absurd rfl hbs
        | some sig => rfl

/-- The consume loop runs to the end of any finite stream whose decodable
cache-event messages carry a body signature, under all-accepting name
validations. -/
lemma consumeLoop_no_crash (env : RemoteEnv)
    (l : List (Except String Message))
    (hvi : ∀ s, env.validInterface s = true)
    (hvp : ∀ s, env.validPath s = true)
    (hvd : ∀ s, env.validDestination s = true)
    (hwf : ∀ msg, Except.ok msg ∈ l → ∀ c,
      msg.event = some (Event.Cache c) → msg.body_signature ≠ none) :
    (consumeLoop env l).2 = none := by
  induction l with
  | nil => rfl
  | cons m rest ih =>
    have hstep : (loopBody env m).2 = none := by
      cases m with
      | error e => rfl
      | ok msg =>
        exact handleMessage_no_crash env msg hvi hvp hvd
          (hwf msg (List.mem_cons_self _ _))
    have hrest := ih fun msg hm => hwf msg (List.mem_cons_of_mem _ hm)
    unfold consumeLoop
    simp only [hstep, hrest]

/-- Claim C3, amended: after a successful setup, and provided that the zbus
name validations accept the interface constants and every event-supplied
bus name and object path (otherwise the source's `?` operators propagate
the builder error out of `main`) and that every message decoding to a cache
event carries a body signature (otherwise `body_signature().unwrap()`
panics), processing messages never terminates the loop: `main` runs to the
end of the stream with no panic and no propagated error. -/
theorem c3_loop_survives_messages (se : SetupEnv) (env : RemoteEnv)
    (stream : List (Except String Message))
    (hsetup : atspi_setup_connection se = Except.ok ())
    (hvi : ∀ s, env.validInterface s = true)
    (hvp : ∀ s, env.validPath s = true)
    (hvd : ∀ s, env.validDestination s = true)
    (hwf : ∀ msg, Except.ok msg ∈ stream → ∀ c,
      msg.event = some (Event.Cache c) → msg.body_signature ≠ none) :
    (progMain se env stream).2 = none := by
  unfold progMain
  rw [hsetup]
  refine consumeLoop_no_crash env (rawSignals stream) hvi hvp hvd ?_
  intro msg hm c hc
  refine hwf msg ?_ c hc
  unfold rawSignals at hm
  exact List.mem_of_mem_filter hm

/-- Concrete instance of the amended C3: a four-item stream (an Add signal,
a transport error, a Remove signal and undecodable noise) is consumed to
the end without crash. -/
theorem c3_loop_survives_messages_witness :
    (progMain setupOk envHappy
        [Except.ok addMsg, Except.error "glitch", Except.ok removeMsg,
         Except.ok noiseMsg]).2 = none :=
  c3_loop_survives_messages setupOk envHappy
    [Except.ok addMsg, Except.error "glitch", Except.ok removeMsg,
     Except.ok noiseMsg] rfl
    (fun _ => rfl) (fun _ => rfl) (fun _ => rfl)
    (by
      intro msg hm c hc
      simp only [List.mem_cons, List.not_mem_nil, or_false] at hm
      rcases hm with h | h | h | h
      · obtain rfl : msg = addMsg := by injection h
        simp [addMsg]
      · exact Except.noConfusion h
      · obtain rfl : msg = removeMsg := by injection h
        simp [removeMsg]
      · obtain rfl : msg = noiseMsg := by injection h
        simp [noiseMsg] at hc)

end Sigmon
